import Mathlib

/-!
# Verification of the TMS-AI core logic

Shallow embedding of the core decision logic of the TMS-AI repository:

* `config/settings.py`   — configuration constants
* `modules/rag_engine.py`— confidence scoring, guardrails, answer pipeline
* `utils/retry_utils.py` — error classification and retry/backoff policy
* `modules/extractor.py` — structured shipment-data extraction
* `models/schemas.py`    — the `ShipmentData` record

Numeric values (distances, weights, thresholds, confidence) are modelled as
rationals.  External collaborators (the language model, the vector store, the
JSON decoder of the standard library) are passed in as explicit function
arguments; the logic of the repository itself is translated line by line.
-/

namespace TMS

/-! ## Python string primitives (character-level, so they reduce in the kernel) -/

/-- Python `str.lower()` (ASCII case folding, which covers all strings the
code lowercases). -/
def pyLower (s : String) : String := ⟨s.data.map Char.toLower⟩

/-- The whitespace characters stripped by Python `str.strip()`. -/
def pyIsSpace (c : Char) : Bool :=
  c == ' ' || c == '\t' || c == '\n' || c == '\r' || c == '\x0b' || c == '\x0c'

/-- Python `str.strip()` with no argument: remove leading and trailing
whitespace. -/
def pyStrip (s : String) : String :=
  ⟨((s.data.dropWhile pyIsSpace).reverse.dropWhile pyIsSpace).reverse⟩

/-- Does the first list start with the second one? -/
def startsWithL : List Char → List Char → Bool
  | _, [] => true
  | [], _ :: _ => false
  | c :: cs, p :: ps => c == p && startsWithL cs ps

/-- Substring containment on character lists. -/
def containsL : List Char → List Char → Bool
  | [], pat => startsWithL [] pat
  | c :: cs, pat => startsWithL (c :: cs) pat || containsL cs pat

/-- Python `pat in s` (substring test). -/
def pyContains (s pat : String) : Bool := containsL s.data pat.data

/-- Python `s.startswith(pat)`. -/
def pyStartsWith (s pat : String) : Bool := startsWithL s.data pat.data

/-- Python `s[n:]` (drop the first `n` characters). -/
def pyDrop (s : String) (n : Nat) : String := ⟨s.data.drop n⟩

/-- Worker for `pySplit`: fuel-bounded scan emitting the segments between
occurrences of `pat`. -/
def splitOnAux (pat : List Char) : Nat → List Char → List Char → List (List Char)
  | _, cur, [] => [cur.reverse]
  | 0, cur, rest => [cur.reverse ++ rest]
  | fuel + 1, cur, c :: cs =>
    if startsWithL (c :: cs) pat then
      cur.reverse :: splitOnAux pat fuel [] ((c :: cs).drop pat.length)
    else
      splitOnAux pat fuel (c :: cur) cs

/-- Python `s.split(pat)` for a non-empty separator `pat`. -/
def pySplit (s pat : String) : List String :=
  (splitOnAux pat.data (s.data.length + 1) [] s.data).map String.mk

/-- Bankers rounding to 3 decimal places, Python `round(x, 3)`. -/
def pyRound3 (q : ℚ) : ℚ :=
  let x := q * 1000
  let f : Int := Int.floor x
  let r := x - (f : ℚ)
  let n : Int :=
    if r < 1/2 then f
    else if 1/2 < r then f + 1
    else if f % 2 = 0 then f else f + 1
  (n : ℚ) / 1000

/-! ## `config/settings.py` — the constants the core logic reads -/

namespace Settings

/-- `Settings.SIMILARITY_THRESHOLD = 0.2`. -/
def SIMILARITY_THRESHOLD : ℚ := 2/10

/-- `Settings.TOP_K_RETRIEVAL = 3`. -/
def TOP_K_RETRIEVAL : Nat := 3

/-- `Settings.SIMILARITY_WEIGHT = 0.5`. -/
def SIMILARITY_WEIGHT : ℚ := 5/10

/-- `Settings.AGREEMENT_WEIGHT = 0.5`. -/
def AGREEMENT_WEIGHT : ℚ := 5/10

/-- `Settings.MAX_RETRIES = 3`. -/
def MAX_RETRIES : Nat := 3

end Settings

/-! ## Data model -/

/-- A langchain `Document`: page content plus string-keyed metadata. -/
structure Document where
  page_content : String
  metadata : List (String × String)
deriving Repr, DecidableEq

/-- One entry of the `sources` list built by `RAGEngine.generate_answer`. -/
structure SourceChunk where
  content : String
  similarity_score : ℚ
  metadata : List (String × String)
deriving Repr, DecidableEq

/-- The result dictionary returned by `RAGEngine.generate_answer` and
`RAGEngine.ask_question`. -/
structure AnswerResult where
  answer : String
  confidence_score : ℚ
  confidence_category : String
  sources : List SourceChunk
  passes_guardrails : Bool
deriving Repr, DecidableEq

/-! ## `modules/rag_engine.py` — `RAGEngine` -/

namespace RAGEngine

/-- The category branch of `RAGEngine.calculate_confidence_score`
(lines 75–81): `high` for `confidence >= 0.7`, `medium` for
`confidence >= 0.5`, otherwise `low`. -/
def confidenceCategory (confidence : ℚ) : String :=
  if confidence ≥ 7/10 then "high"
  else if confidence ≥ 5/10 then "medium"
  else "low"

/-- `RAGEngine.calculate_confidence_score` (lines 44–88): average retrieval
similarity `1 - mean(distances)`, source agreement `1.0` for at least two
sources else `0.7`, weighted sum, and the category.  The `answer` argument is
accepted and unused, exactly as in the source. -/
def calculate_confidence_score (retrieval_scores : List ℚ) (answer : String)
    (sources : List Document) : ℚ × String :=
  let avg_similarity : ℚ := 1 - retrieval_scores.sum / (retrieval_scores.length : ℚ)
  let source_agreement : ℚ := if sources.length ≥ 2 then 1 else 7/10
  let confidence : ℚ :=
    Settings.SIMILARITY_WEIGHT * avg_similarity +
    Settings.AGREEMENT_WEIGHT * source_agreement
  (confidence, confidenceCategory confidence)

/-- `RAGEngine.apply_guardrails` (lines 90–118): fail when the average
retrieval similarity or the confidence is below the similarity threshold. -/
def apply_guardrails (confidence : ℚ) (retrieval_scores : List ℚ) : Bool :=
  let avg_retrieval : ℚ := 1 - retrieval_scores.sum / (retrieval_scores.length : ℚ)
  if avg_retrieval < Settings.SIMILARITY_THRESHOLD then false
  else if confidence < Settings.SIMILARITY_THRESHOLD then false
  else true

/-- `RAGEngine._create_prompt` (lines 120–153): the fixed instruction
template instantiated with the context and the question. -/
def create_prompt (question : String) (context : String) : String :=
  "You are a helpful AI assistant for a Transportation Management System (TMS). \nYour task is to answer questions about logistics documents accurately and concisely.\n\nIMPORTANT RULES:\n1. Answer ONLY based on the provided context below\n2. If the context doesn\x27t contain the information, say \"The information is not found in the document\"\n3. Be specific and cite relevant details from the context\n4. Keep answers concise and factual\n5. Do not make up or infer information not present in the context\n\nContext from document:\n"
  ++ context
  ++ "\n\nQuestion: " ++ question ++ "\n\nAnswer:"

/-- The context block built in `RAGEngine.generate_answer` (lines 177–180):
retrieved chunks labelled `[Source i]` and joined by a delimiter. -/
def make_context (documents : List Document) : String :=
  String.intercalate "\n\n---\n\n"
    (documents.enum.map
      (fun p => "[Source " ++ toString (p.1 + 1) ++ "]:\n" ++ p.2.page_content))

/-- The fixed abstention message substituted when guardrails fail
(`rag_engine.py` line 196). -/
def guardrailFailMessage : String :=
  "I cannot provide a confident answer based on the available context. The information might not be present in the document, or the retrieved content has low relevance to your question."

/-- The fixed message returned when retrieval yields no chunks
(`rag_engine.py` line 253). -/
def noInfoMessage : String := "No relevant information found in the document."

/-- `RAGEngine.generate_answer` (lines 155–222).  The language model call
`self.llm.invoke` is the external collaborator `llm : String → String`
applied to the built prompt. -/
def generate_answer (llm : String → String) (question : String)
    (retrieved_docs : List (Document × ℚ)) : AnswerResult :=
  let documents := retrieved_docs.map Prod.fst
  let scores := retrieved_docs.map Prod.snd
  let context := make_context documents
  let prompt := create_prompt question context
  let answer := llm prompt
  let cc := calculate_confidence_score scores answer documents
  let confidence := cc.1
  let category := cc.2
  let passes_guardrails := apply_guardrails confidence scores
  { answer := if passes_guardrails then answer else guardrailFailMessage
    confidence_score := pyRound3 confidence
    confidence_category := if passes_guardrails then category else "low"
    sources := retrieved_docs.map
      (fun dc => { content := dc.1.page_content
                   similarity_score := pyRound3 (1 - dc.2)
                   metadata := dc.1.metadata })
    passes_guardrails := passes_guardrails }

/-- The fixed result returned by `RAGEngine.ask_question` when retrieval
returns no chunks (lines 251–258). -/
def noInfoResult : AnswerResult :=
  { answer := noInfoMessage
    confidence_score := 0
    confidence_category := "low"
    sources := []
    passes_guardrails := false }

/-- `RAGEngine.ask_question` (lines 224–263).  The vector-store similarity
search is the external collaborator; its result `retrieved_docs` is passed in
explicitly. -/
def ask_question (llm : String → String) (retrieved_docs : List (Document × ℚ))
    (question : String) : AnswerResult :=
  match retrieved_docs with
  | [] => noInfoResult
  | _ :: _ => generate_answer llm question retrieved_docs

end RAGEngine

/-! ## `utils/retry_utils.py` -/

namespace RetryUtils

/-- The dynamic type of a Python exception, as far as the retry machinery
distinguishes them: the three custom classes of `retry_utils.py`, the builtin
`ConnectionError` and `TimeoutError` named in the `retry_if_exception_type`
tuple, and everything else. -/
inductive ExcType
  | rateLimitError
  | tokenLimitError
  | serviceUnavailableError
  | connectionError
  | timeoutError
  | genericError
deriving Repr, DecidableEq

/-- A Python exception: its type together with its message `str(e)`. -/
structure Exc where
  ty : ExcType
  msg : String
deriving Repr, DecidableEq

/-- `is_retriable_error` (retry_utils.py lines 31–51): lower-case the message
and look for the marker substrings. -/
def is_retriable_error (e : Exc) : Bool :=
  let error_msg := pyLower e.msg
  if pyContains error_msg "rate limit" || pyContains error_msg "429" then true
  else if pyContains error_msg "token limit" || pyContains error_msg "tokens" then true
  else if pyContains error_msg "503" || pyContains error_msg "service unavailable" then true
  else if pyContains error_msg "timeout" then true
  else false

/-- The `except` clause of `retry_on_api_error.wrapper` (lines 79–90): a
failure whose message matches one of the first three marker groups is
re-raised as the corresponding custom exception class; every other failure —
including one that `is_retriable_error` classified retriable only through its
timeout marker — is re-raised unchanged. -/
def convertError (e : Exc) : Exc :=
  if is_retriable_error e then
    let error_msg := pyLower e.msg
    if pyContains error_msg "rate limit" || pyContains error_msg "429" then
      { ty := ExcType.rateLimitError, msg := e.msg }
    else if pyContains error_msg "token limit" || pyContains error_msg "tokens" then
      { ty := ExcType.tokenLimitError, msg := e.msg }
    else if pyContains error_msg "503" || pyContains error_msg "service unavailable" then
      { ty := ExcType.serviceUnavailableError, msg := e.msg }
    else e
  else e

/-- The `retry_if_exception_type` tuple of the `@retry` decorator
(lines 65–71): tenacity retries exactly these exception types. -/
def isRetryType (e : Exc) : Bool :=
  match e.ty with
  | ExcType.genericError => false
  | _ => true

/-- One attempt of the wrapped function: run the operation; on failure apply
the exception conversion of the wrapper. -/
def attemptOnce {α : Type} (op : Nat → Except Exc α) (i : Nat) : Except Exc α :=
  match op i with
  | Except.ok v => Except.ok v
  | Except.error e => Except.error (convertError e)

/-- The tenacity retry loop with `stop_after_attempt` semantics: `i` is the
index of the current attempt, `remaining` the number of attempts still
allowed.  Returns the final outcome together with the number of backoff waits
performed.  After the last allowed attempt the error is re-raised
(`reraise=True`) with no further wait; a non-retriable exception type stops
the loop at once. -/
def retryFrom {α : Type} (op : Nat → Except Exc α) : Nat → Nat → Except Exc α × Nat
  | _, 0 => (Except.error { ty := ExcType.genericError, msg := "" }, 0)
  | i, 1 => (attemptOnce op i, 0)
  | i, r + 2 =>
    match attemptOnce op i with
    | Except.ok v => (Except.ok v, 0)
    | Except.error e =>
      if isRetryType e then
        let res := retryFrom op (i + 1) (r + 1)
        (res.1, res.2 + 1)
      else (Except.error e, 0)

/-- `retry_on_api_error` (lines 53–92) applied to an operation whose attempts
may fail: `op i` is the outcome of attempt `i` (the operation is an external
call, so successive attempts may differ).  `stop_after_attempt(3)` allows 3
total attempts. -/
def retry_on_api_error {α : Type} (op : Nat → Except Exc α) : Except Exc α × Nat :=
  retryFrom op 0 Settings.MAX_RETRIES

end RetryUtils

/-! ## `models/schemas.py` — `ShipmentData` and `modules/extractor.py` -/

namespace Extractor

/-- A JSON value as far as the `ShipmentData` schema distinguishes them:
`null`, a string, or anything else (numbers, booleans, arrays, objects). -/
inductive JVal
  | null
  | str (s : String)
  | other
deriving Repr, DecidableEq

/-- `ShipmentData` (schemas.py lines 38–50): eleven optional string fields,
each defaulting to `None`. -/
structure ShipmentData where
  shipment_id : Option String := none
  shipper : Option String := none
  consignee : Option String := none
  pickup_datetime : Option String := none
  delivery_datetime : Option String := none
  equipment_type : Option String := none
  mode : Option String := none
  rate : Option String := none
  currency : Option String := none
  weight : Option String := none
  carrier_name : Option String := none
deriving Repr, DecidableEq

/-- `ShipmentData()` — the all-absent record. -/
def emptyShipmentData : ShipmentData := {}

/-- Pydantic validation of one `Optional[str]` field: absent or JSON `null`
become `None`, a JSON string is taken verbatim, any other JSON value is a
validation error. -/
def fieldOfJVal : Option JVal → Except Unit (Option String)
  | none => Except.ok none
  | some JVal.null => Except.ok none
  | some (JVal.str s) => Except.ok (some s)
  | some JVal.other => Except.error ()

/-- `ShipmentData(**extracted_data)`: look up each of the eleven schema
fields in the parsed JSON object (unknown keys are ignored by pydantic);
fail if any known field has a non-string, non-null value. -/
def shipmentDataOfObj (obj : List (String × JVal)) : Except Unit ShipmentData := do
  let shipment_id ← fieldOfJVal (obj.lookup "shipment_id")
  let shipper ← fieldOfJVal (obj.lookup "shipper")
  let consignee ← fieldOfJVal (obj.lookup "consignee")
  let pickup_datetime ← fieldOfJVal (obj.lookup "pickup_datetime")
  let delivery_datetime ← fieldOfJVal (obj.lookup "delivery_datetime")
  let equipment_type ← fieldOfJVal (obj.lookup "equipment_type")
  let mode ← fieldOfJVal (obj.lookup "mode")
  let rate ← fieldOfJVal (obj.lookup "rate")
  let currency ← fieldOfJVal (obj.lookup "currency")
  let weight ← fieldOfJVal (obj.lookup "weight")
  let carrier_name ← fieldOfJVal (obj.lookup "carrier_name")
  return { shipment_id, shipper, consignee, pickup_datetime, delivery_datetime,
           equipment_type, mode, rate, currency, weight, carrier_name }

/-- The markdown-fence stripping of `extract_shipment_data`
(extractor.py lines 146–149): if the text starts with a fence, keep the
segment between the first two fences and drop a leading `json` language
tag. -/
def stripCodeFence (result_text : String) : String :=
  if pyStartsWith result_text "```" then
    let t := (pySplit result_text "```").getD 1 ""
    if pyStartsWith t "json" then pyDrop t 4 else t
  else result_text

/-- `extract_shipment_data` from the model response onward
(extractor.py lines 142–165): strip, remove an optional code fence, strip
again, parse as JSON (`parseJson` stands for `json.loads`; `none` is a
`JSONDecodeError`, which yields an empty object), and validate into
`ShipmentData`; a validation failure is caught by the outer handler and
yields `ShipmentData()`. -/
def parse_shipment_response (parseJson : String → Option (List (String × JVal)))
    (content : String) : ShipmentData :=
  let t0 := pyStrip content
  let t1 := stripCodeFence t0
  let result_text := pyStrip t1
  match parseJson result_text with
  | none => emptyShipmentData
  | some extracted_data =>
    match shipmentDataOfObj extracted_data with
    | Except.ok sd => sd
    | Except.error _ => emptyShipmentData

/-- `StructuredExtractor._create_extraction_prompt` (lines 44–89). -/
def create_extraction_prompt (document_text : String) : String :=
  "You are an expert at extracting structured data from logistics documents.\n\nYour task is to extract the following shipment information from the provided document text.\nReturn ONLY a JSON object with these exact fields. Use null for any field not found in the document.\n\nRequired fields:\n- shipment_id: Shipment or order ID\n- shipper: Name or company shipping the goods\n- consignee: Name or company receiving the goods\n- pickup_datetime: Scheduled pickup date and time\n- delivery_datetime: Scheduled or expected delivery date and time\n- equipment_type: Type of equipment (e.g., \"53\x27 Dry Van\", \"Flatbed\", \"Reefer\")\n- mode: Transportation mode (e.g., \"LTL\", \"FTL\", \"Parcel\")\n- rate: Transportation rate or cost\n- currency: Currency for the rate (e.g., \"USD\", \"CAD\")\n- weight: Total weight of shipment\n- carrier_name: Name of the carrier company\n\nIMPORTANT RULES:\n1. Extract information EXACTLY as it appears in the document\n2. Return valid JSON format only, no additional text\n3. Use null for missing fields, not empty strings\n4. Preserve original formatting for dates, numbers, and names\n5. Do not make assumptions or infer missing data\n\nDocument Text:\n"
  ++ document_text ++ "\n\nJSON Output:"

/-- `StructuredExtractor.extract_shipment_data` (lines 119–170) end to end.
The vector-store context query `_get_document_context` and the model call
`self.llm.invoke` are the external collaborators `ctx` and `llm`; either may
fail.  The outer `except` returns `ShipmentData()` on any failure. -/
def extract_shipment_data (parseJson : String → Option (List (String × JVal)))
    (ctx : Except RetryUtils.Exc String) (llm : String → Except RetryUtils.Exc String)
    (document_id : String) : ShipmentData :=
  match ctx with
  | Except.error _ => emptyShipmentData
  | Except.ok document_text =>
    match llm (create_extraction_prompt document_text) with
    | Except.error _ => emptyShipmentData
    | Except.ok content => parse_shipment_response parseJson content

end Extractor

/-! ## Concrete inputs used to exercise the definitions -/

/-- A sample retrieved chunk. -/
def sampleDoc : Document :=
  { page_content := "Shipment 123 from Acme to Bravo.", metadata := [("document_id", "doc1")] }

/-- A concrete language model that always returns the same answer. -/
def constLLM : String → String := fun _ => "The shipment id is 123."

/-- An operation that fails on the first attempt with a generic error whose
message carries a timeout marker, then succeeds. -/
def timeoutFailOp : Nat → Except RetryUtils.Exc Nat := fun i =>
  if i = 0 then Except.error { ty := RetryUtils.ExcType.genericError, msg := "Request timeout" }
  else Except.ok 42

/-- An operation that fails on the first attempt with a rate-limit message,
then succeeds. -/
def rateLimitOnceOp : Nat → Except RetryUtils.Exc Nat := fun i =>
  if i = 0 then Except.error { ty := RetryUtils.ExcType.genericError, msg := "Rate limit exceeded" }
  else Except.ok 5

/-- An operation that fails on the first two attempts with an HTTP 429
message, then succeeds. -/
def failTwiceOp : Nat → Except RetryUtils.Exc Nat := fun i =>
  if i < 2 then Except.error { ty := RetryUtils.ExcType.genericError, msg := "HTTP 429 returned" }
  else Except.ok 7

/-- An operation that fails on the first attempt with a `ConnectionError`
whose message carries no retriable marker, then succeeds. -/
def connFailOp : Nat → Except RetryUtils.Exc Nat := fun i =>
  if i = 0 then Except.error { ty := RetryUtils.ExcType.connectionError, msg := "boom" }
  else Except.ok 9

/-- An operation that fails on every attempt with an HTTP 429 message. -/
def failAlwaysOp : Nat → Except RetryUtils.Exc Nat := fun _ =>
  Except.error { ty := RetryUtils.ExcType.genericError, msg := "HTTP 429 returned" }

/-- A JSON decoder outcome representing a `JSONDecodeError` on every input. -/
def alwaysFailParse : String → Option (List (String × Extractor.JVal)) := fun _ => none

/-- The parsed JSON object holding exactly the eleven schema fields with the
given string values, in schema order. -/
def elevenFieldsObj (v1 v2 v3 v4 v5 v6 v7 v8 v9 v10 v11 : String) :
    List (String × Extractor.JVal) :=
  [("shipment_id", Extractor.JVal.str v1), ("shipper", Extractor.JVal.str v2),
   ("consignee", Extractor.JVal.str v3), ("pickup_datetime", Extractor.JVal.str v4),
   ("delivery_datetime", Extractor.JVal.str v5), ("equipment_type", Extractor.JVal.str v6),
   ("mode", Extractor.JVal.str v7), ("rate", Extractor.JVal.str v8),
   ("currency", Extractor.JVal.str v9), ("weight", Extractor.JVal.str v10),
   ("carrier_name", Extractor.JVal.str v11)]

/-- A JSON decoder outcome with all eleven fields populated. -/
def elevenParse : String → Option (List (String × Extractor.JVal)) := fun _ =>
  some (elevenFieldsObj "S1" "Acme" "Bravo" "2024-01-01 08:00" "2024-01-02 17:00"
    "Flatbed" "FTL" "1500" "USD" "42000 lbs" "FastFreight")

/-- A JSON decoder outcome whose object carries an empty string for the
shipment id. -/
def emptyStringParse : String → Option (List (String × Extractor.JVal)) := fun _ =>
  some [("shipment_id", Extractor.JVal.str "")]

/-! ## Helper lemmas (shared) -/

/-- Splitting an `Except` bind that returned `ok`. -/
theorem exceptBindOk {ε α β : Type} {x : Except ε α} {f : α → Except ε β} {b : β}
    (h : (x >>= f) = Except.ok b) : ∃ a, x = Except.ok a ∧ f a = Except.ok b := by
  cases x with
  | ok a => exact ⟨a, rfl, h⟩
  | error e => simp [Bind.bind, Except.bind] at h

/-- `apply_guardrails` returns `true` exactly when neither threshold check
fires. -/
theorem apply_guardrails_iff (c : ℚ) (s : List ℚ) :
    RAGEngine.apply_guardrails c s = true ↔
      ¬(1 - s.sum / (s.length : ℚ) < Settings.SIMILARITY_THRESHOLD) ∧
      ¬(c < Settings.SIMILARITY_THRESHOLD) := by
  unfold RAGEngine.apply_guardrails
  split_ifs with h1 h2 <;> simp_all

/-- `pyRound3` is the identity on exact multiples of one thousandth. -/
theorem pyRound3_exact (q : ℚ) (n : ℤ) (h : q * 1000 = (n : ℚ)) :
    pyRound3 q = (n : ℚ) / 1000 := by
  unfold pyRound3
  simp only [h, Int.floor_intCast, sub_self]
  norm_num

/-- `generate_answer` unfolded to its defining record. -/
theorem generate_answer_eq (llm : String → String) (question : String)
    (retrieved : List (Document × ℚ)) :
    RAGEngine.generate_answer llm question retrieved =
      { answer :=
          if RAGEngine.apply_guardrails
              (RAGEngine.calculate_confidence_score (retrieved.map Prod.snd)
                (llm (RAGEngine.create_prompt question
                  (RAGEngine.make_context (retrieved.map Prod.fst))))
                (retrieved.map Prod.fst)).1
              (retrieved.map Prod.snd) then
            llm (RAGEngine.create_prompt question
              (RAGEngine.make_context (retrieved.map Prod.fst)))
          else RAGEngine.guardrailFailMessage
        confidence_score :=
          pyRound3 (RAGEngine.calculate_confidence_score (retrieved.map Prod.snd)
            (llm (RAGEngine.create_prompt question
              (RAGEngine.make_context (retrieved.map Prod.fst))))
            (retrieved.map Prod.fst)).1
        confidence_category :=
          if RAGEngine.apply_guardrails
              (RAGEngine.calculate_confidence_score (retrieved.map Prod.snd)
                (llm (RAGEngine.create_prompt question
                  (RAGEngine.make_context (retrieved.map Prod.fst))))
                (retrieved.map Prod.fst)).1
              (retrieved.map Prod.snd) then
            (RAGEngine.calculate_confidence_score (retrieved.map Prod.snd)
              (llm (RAGEngine.create_prompt question
                (RAGEngine.make_context (retrieved.map Prod.fst))))
              (retrieved.map Prod.fst)).2
          else "low"
        sources := retrieved.map
          (fun dc => { content := dc.1.page_content
                       similarity_score := pyRound3 (1 - dc.2)
                       metadata := dc.1.metadata })
        passes_guardrails :=
          RAGEngine.apply_guardrails
            (RAGEngine.calculate_confidence_score (retrieved.map Prod.snd)
              (llm (RAGEngine.create_prompt question
                (RAGEngine.make_context (retrieved.map Prod.fst))))
              (retrieved.map Prod.fst)).1
            (retrieved.map Prod.snd) } := rfl

/-- Unfolding `retryFrom` at three remaining attempts. -/
theorem retryFrom_three {α : Type} (op : Nat → Except RetryUtils.Exc α) (i : Nat) :
    RetryUtils.retryFrom op i 3 =
      match RetryUtils.attemptOnce op i with
      | Except.ok v => (Except.ok v, 0)
      | Except.error e =>
        if RetryUtils.isRetryType e then
          ((RetryUtils.retryFrom op (i + 1) 2).1, (RetryUtils.retryFrom op (i + 1) 2).2 + 1)
        else (Except.error e, 0) := rfl

/-- Unfolding `retryFrom` at two remaining attempts. -/
theorem retryFrom_two {α : Type} (op : Nat → Except RetryUtils.Exc α) (i : Nat) :
    RetryUtils.retryFrom op i 2 =
      match RetryUtils.attemptOnce op i with
      | Except.ok v => (Except.ok v, 0)
      | Except.error e =>
        if RetryUtils.isRetryType e then
          ((RetryUtils.retryFrom op (i + 1) 1).1, (RetryUtils.retryFrom op (i + 1) 1).2 + 1)
        else (Except.error e, 0) := rfl

/-- Unfolding `retryFrom` at the final allowed attempt. -/
theorem retryFrom_one {α : Type} (op : Nat → Except RetryUtils.Exc α) (i : Nat) :
    RetryUtils.retryFrom op i 1 = (RetryUtils.attemptOnce op i, 0) := rfl

/-! ## The claims -/

/-- C3: for every confidence score `c` computed by the answer engine, the
category is `high` if `c ≥ 0.7`, `medium` if `0.5 ≤ c < 0.7`, and `low` if
`c < 0.5`; the boundary values `0.7` and `0.5` map to `high` and `medium`
respectively, and `calculate_confidence_score` assigns exactly this category
to the confidence it computes. -/
theorem claim_C3 (c : ℚ) :
    (7/10 ≤ c → RAGEngine.confidenceCategory c = "high") ∧
    (5/10 ≤ c ∧ c < 7/10 → RAGEngine.confidenceCategory c = "medium") ∧
    (c < 5/10 → RAGEngine.confidenceCategory c = "low") ∧
    RAGEngine.confidenceCategory (7/10) = "high" ∧
    RAGEngine.confidenceCategory (5/10) = "medium" ∧
    (∀ (scores : List ℚ) (answer : String) (sources : List Document),
      (RAGEngine.calculate_confidence_score scores answer sources).2 =
        RAGEngine.confidenceCategory
          (RAGEngine.calculate_confidence_score scores answer sources).1) := by
  refine ⟨?_, ?_, ?_, ?_, ?_, fun _ _ _ => rfl⟩
  · intro h
    simp [RAGEngine.confidenceCategory, show c ≥ 7/10 from h]
  · intro h
    simp [RAGEngine.confidenceCategory, show ¬(c ≥ 7/10) from not_le.mpr h.2,
      show c ≥ 5/10 from h.1]
  · intro h
    simp [RAGEngine.confidenceCategory,
      show ¬(c ≥ 7/10) from not_le.mpr (lt_trans h (by norm_num)),
      show ¬(c ≥ 5/10) from not_le.mpr h]
  · norm_num [RAGEngine.confidenceCategory]
  · norm_num [RAGEngine.confidenceCategory]

/-- Witness for C3 at the concrete scores 0.9, 0.6 and 0.1. -/
theorem claim_C3_witness :
    RAGEngine.confidenceCategory (9/10) = "high" ∧
    RAGEngine.confidenceCategory (6/10) = "medium" ∧
    RAGEngine.confidenceCategory (1/10) = "low" :=
  ⟨(claim_C3 (9/10)).1 (by norm_num),
   (claim_C3 (6/10)).2.1 ⟨by norm_num, by norm_num⟩,
   (claim_C3 (1/10)).2.2.1 (by norm_num)⟩

/-- C6: when retrieval returns zero chunks, `ask_question` returns the fixed
no-information message with confidence 0.0, category `low`, empty sources,
and `passes_guardrails = false`, without invoking the model and independently
of the question content (the result does not depend on `llm` or
`question`). -/
theorem claim_C6 (llm : String → String) (question : String) :
    RAGEngine.ask_question llm [] question = RAGEngine.noInfoResult ∧
    (RAGEngine.ask_question llm [] question).answer =
      "No relevant information found in the document." ∧
    (RAGEngine.ask_question llm [] question).confidence_score = 0 ∧
    (RAGEngine.ask_question llm [] question).confidence_category = "low" ∧
    (RAGEngine.ask_question llm [] question).sources = [] ∧
    (RAGEngine.ask_question llm [] question).passes_guardrails = false ∧
    (∀ (llm2 : String → String) (question2 : String),
      RAGEngine.ask_question llm [] question = RAGEngine.ask_question llm2 [] question2) :=
  ⟨rfl, rfl, rfl, rfl, rfl, rfl, fun _ _ => rfl⟩

/-- C10: in the `ask_question` pipeline the divisor `len(retrieval_scores)`
used inside `calculate_confidence_score` and `apply_guardrails` is only
reached when at least one chunk was retrieved: the zero-result case
short-circuits to the fixed result before `generate_answer` is called, and in
the non-empty case the score list handed to both functions has a non-zero
length, so the division-by-zero branch is unreachable. -/
theorem claim_C10 (llm : String → String) (retrieved : List (Document × ℚ))
    (question : String) :
    (retrieved = [] ∧
      RAGEngine.ask_question llm retrieved question = RAGEngine.noInfoResult) ∨
    (retrieved ≠ [] ∧
      RAGEngine.ask_question llm retrieved question =
        RAGEngine.generate_answer llm question retrieved ∧
      ((retrieved.map Prod.snd).length : ℚ) ≠ 0) := by
  cases retrieved with
  | nil => exact Or.inl ⟨rfl, rfl⟩
  | cons hd tl =>
    refine Or.inr ⟨by simp, rfl, ?_⟩
    have h0 : ((tl.length + 1 : ℕ) : ℚ) ≠ 0 := Nat.cast_ne_zero.mpr (Nat.succ_ne_zero _)
    simpa using h0

/-- C1: for every answer-engine call with at least one retrieved chunk, if
the average retrieval similarity `1 - mean(distances)` or the computed
confidence is below the similarity threshold, the returned answer is the
fixed abstention text regardless of what the model generated, the category is
forced to `low` and `passes_guardrails` is false; otherwise the generated
answer and the computed category stand and `passes_guardrails` is true. -/
theorem claim_C1 (llm : String → String) (question : String)
    (retrieved : List (Document × ℚ)) (h : retrieved ≠ []) :
    ((1 - (retrieved.map Prod.snd).sum / ((retrieved.map Prod.snd).length : ℚ) <
        Settings.SIMILARITY_THRESHOLD ∨
      (RAGEngine.calculate_confidence_score (retrieved.map Prod.snd)
          (llm (RAGEngine.create_prompt question
            (RAGEngine.make_context (retrieved.map Prod.fst))))
          (retrieved.map Prod.fst)).1 < Settings.SIMILARITY_THRESHOLD) →
      ((RAGEngine.generate_answer llm question retrieved).answer =
          RAGEngine.guardrailFailMessage ∧
       (RAGEngine.generate_answer llm question retrieved).confidence_category = "low" ∧
       (RAGEngine.generate_answer llm question retrieved).passes_guardrails = false)) ∧
    ((¬(1 - (retrieved.map Prod.snd).sum / ((retrieved.map Prod.snd).length : ℚ) <
        Settings.SIMILARITY_THRESHOLD) ∧
      ¬((RAGEngine.calculate_confidence_score (retrieved.map Prod.snd)
          (llm (RAGEngine.create_prompt question
            (RAGEngine.make_context (retrieved.map Prod.fst))))
          (retrieved.map Prod.fst)).1 < Settings.SIMILARITY_THRESHOLD)) →
      ((RAGEngine.generate_answer llm question retrieved).answer =
          llm (RAGEngine.create_prompt question
            (RAGEngine.make_context (retrieved.map Prod.fst))) ∧
       (RAGEngine.generate_answer llm question retrieved).confidence_category =
          (RAGEngine.calculate_confidence_score (retrieved.map Prod.snd)
            (llm (RAGEngine.create_prompt question
              (RAGEngine.make_context (retrieved.map Prod.fst))))
            (retrieved.map Prod.fst)).2 ∧
       (RAGEngine.generate_answer llm question retrieved).passes_guardrails = true)) := by
  constructor
  · intro hlow
    have hb : RAGEngine.apply_guardrails
        (RAGEngine.calculate_confidence_score (retrieved.map Prod.snd)
          (llm (RAGEngine.create_prompt question
            (RAGEngine.make_context (retrieved.map Prod.fst))))
          (retrieved.map Prod.fst)).1
        (retrieved.map Prod.snd) = false := by
      cases hcase : RAGEngine.apply_guardrails
          (RAGEngine.calculate_confidence_score (retrieved.map Prod.snd)
            (llm (RAGEngine.create_prompt question
              (RAGEngine.make_context (retrieved.map Prod.fst))))
            (retrieved.map Prod.fst)).1
          (retrieved.map Prod.snd) with
      | false => rfl
      | true =>
        exfalso
        rcases (apply_guardrails_iff _ _).mp hcase with ⟨hn1, hn2⟩
        rcases hlow with hl | hl
        · exact hn1 hl
        · exact hn2 hl
    rw [generate_answer_eq]
    simp [hb]
  · intro ⟨hn1, hn2⟩
    have hb := (apply_guardrails_iff
      (RAGEngine.calculate_confidence_score (retrieved.map Prod.snd)
        (llm (RAGEngine.create_prompt question
          (RAGEngine.make_context (retrieved.map Prod.fst))))
        (retrieved.map Prod.fst)).1
      (retrieved.map Prod.snd)).mpr ⟨hn1, hn2⟩
    rw [generate_answer_eq]
    simp [hb]

/-- Witness for C1: a single chunk at distance 0.95 triggers the abstention
branch, three chunks at distances 0.1, 0.3, 0.2 keep the generated answer. -/
theorem claim_C1_witness :
    ((RAGEngine.generate_answer constLLM "q" [(sampleDoc, 19/20)]).answer =
        RAGEngine.guardrailFailMessage ∧
      (RAGEngine.generate_answer constLLM "q" [(sampleDoc, 19/20)]).confidence_category =
        "low" ∧
      (RAGEngine.generate_answer constLLM "q" [(sampleDoc, 19/20)]).passes_guardrails =
        false) ∧
    ((RAGEngine.generate_answer constLLM "q"
        [(sampleDoc, 1/10), (sampleDoc, 3/10), (sampleDoc, 2/10)]).passes_guardrails =
      true) :=
  ⟨(claim_C1 constLLM "q" [(sampleDoc, 19/20)] (by simp)).1
      (Or.inl (by norm_num [Settings.SIMILARITY_THRESHOLD])),
   ((claim_C1 constLLM "q" [(sampleDoc, 1/10), (sampleDoc, 3/10), (sampleDoc, 2/10)]
      (by simp)).2
      ⟨by norm_num [Settings.SIMILARITY_THRESHOLD],
       by norm_num [RAGEngine.calculate_confidence_score, Settings.SIMILARITY_THRESHOLD,
         Settings.SIMILARITY_WEIGHT, Settings.AGREEMENT_WEIGHT]⟩).2.2⟩

/-- C2: for every non-empty retrieved list the confidence equals
`similarityWeight * (1 - sum(distances)/count) + agreementWeight *
sourceAgreement` with `sourceAgreement = 1.0` for at least two chunks and
`0.7` otherwise; with the default weights, distances `[0.1, 0.3, 0.2]` give
confidence 0.9, category `high` and a passing guardrail, and the single
distance `[0.95]` gives confidence 0.375, category `low` and forced
abstention. -/
theorem claim_C2 (retrieved : List (Document × ℚ)) (answer : String)
    (h : retrieved ≠ []) :
    (RAGEngine.calculate_confidence_score (retrieved.map Prod.snd) answer
        (retrieved.map Prod.fst)).1 =
      Settings.SIMILARITY_WEIGHT *
        (1 - (retrieved.map Prod.snd).sum / ((retrieved.map Prod.snd).length : ℚ)) +
      Settings.AGREEMENT_WEIGHT * (if 2 ≤ retrieved.length then 1 else 7/10) ∧
    (∀ (llm : String → String) (question : String) (d1 d2 d3 : Document),
      (RAGEngine.generate_answer llm question
        [(d1, 1/10), (d2, 3/10), (d3, 2/10)]).confidence_score = 9/10 ∧
      (RAGEngine.generate_answer llm question
        [(d1, 1/10), (d2, 3/10), (d3, 2/10)]).confidence_category = "high" ∧
      (RAGEngine.generate_answer llm question
        [(d1, 1/10), (d2, 3/10), (d3, 2/10)]).passes_guardrails = true) ∧
    (∀ (llm : String → String) (question : String) (d : Document),
      (RAGEngine.generate_answer llm question [(d, 19/20)]).confidence_score = 3/8 ∧
      (RAGEngine.generate_answer llm question [(d, 19/20)]).confidence_category = "low" ∧
      (RAGEngine.generate_answer llm question [(d, 19/20)]).passes_guardrails = false ∧
      (RAGEngine.generate_answer llm question [(d, 19/20)]).answer =
        RAGEngine.guardrailFailMessage) := by
  refine ⟨?_, ?_, ?_⟩
  · unfold RAGEngine.calculate_confidence_score
    simp [List.length_map, ge_iff_le]
  · intro llm question d1 d2 d3
    have hcc : ∀ ans : String,
        RAGEngine.calculate_confidence_score [1/10, 3/10, 2/10] ans [d1, d2, d3] =
          (9/10, "high") := by
      intro ans
      unfold RAGEngine.calculate_confidence_score RAGEngine.confidenceCategory
      norm_num [Settings.SIMILARITY_WEIGHT, Settings.AGREEMENT_WEIGHT]
    have hg : RAGEngine.apply_guardrails (9/10) [1/10, 3/10, 2/10] = true := by
      unfold RAGEngine.apply_guardrails
      norm_num [Settings.SIMILARITY_THRESHOLD]
    have hr : pyRound3 (9/10) = 9/10 := by
      rw [pyRound3_exact (9/10) 900 (by norm_num)]
      norm_num
    rw [generate_answer_eq]
    simp only [List.map_cons, List.map_nil, hcc, hg, hr]
    simp
  · intro llm question d
    have hcc : ∀ ans : String,
        RAGEngine.calculate_confidence_score [19/20] ans [d] = (3/8, "low") := by
      intro ans
      unfold RAGEngine.calculate_confidence_score RAGEngine.confidenceCategory
      norm_num [Settings.SIMILARITY_WEIGHT, Settings.AGREEMENT_WEIGHT]
    have hg : RAGEngine.apply_guardrails (3/8) [19/20] = false := by
      unfold RAGEngine.apply_guardrails
      norm_num [Settings.SIMILARITY_THRESHOLD]
    have hr : pyRound3 (3/8) = 3/8 := by
      rw [pyRound3_exact (3/8) 375 (by norm_num)]
      norm_num
    rw [generate_answer_eq]
    simp only [List.map_cons, List.map_nil, hcc, hg, hr]
    simp

/-- Witness for C2 at concrete chunks and a concrete model. -/
theorem claim_C2_witness :
    (RAGEngine.generate_answer constLLM "q"
      [(sampleDoc, 1/10), (sampleDoc, 3/10), (sampleDoc, 2/10)]).confidence_score = 9/10 ∧
    (RAGEngine.generate_answer constLLM "q" [(sampleDoc, 19/20)]).answer =
      RAGEngine.guardrailFailMessage :=
  ⟨((claim_C2 [(sampleDoc, 1/10), (sampleDoc, 3/10), (sampleDoc, 2/10)] "a" (by simp)).2.1
      constLLM "q" sampleDoc sampleDoc sampleDoc).1,
   ((claim_C2 [(sampleDoc, 19/20)] "a" (by simp)).2.2 constLLM "q" sampleDoc).2.2.2⟩

/-- C4 counterexample: the claim predicts that a failure whose message
contains a timeout marker is retried, but a generic exception with the
message "Request timeout" — which `is_retriable_error` itself classifies as
retriable — is re-raised unconverted, is not in the retry type tuple, and
propagates on the first attempt with no backoff wait even though the next
attempt would have succeeded; conversely a `ConnectionError` whose message
"boom" contains no marker at all is retried. -/
theorem claim_C4_counterexample :
    RetryUtils.is_retriable_error
      { ty := RetryUtils.ExcType.genericError, msg := "Request timeout" } = true ∧
    RetryUtils.retry_on_api_error timeoutFailOp =
      (Except.error { ty := RetryUtils.ExcType.genericError, msg := "Request timeout" }, 0) ∧
    RetryUtils.is_retriable_error
      { ty := RetryUtils.ExcType.connectionError, msg := "boom" } = false ∧
    RetryUtils.retry_on_api_error connFailOp = (Except.ok 9, 1) :=
  ⟨rfl, rfl, rfl, rfl⟩

/-- C4 (amended): a first-attempt failure is retried if and only if its
converted form has a retriable exception type.  The conversion sends a
failure whose message contains a rate-limit/429, token-limit/"tokens", or
503/"service unavailable" marker to the corresponding custom retriable class
and leaves every other failure unchanged, so a failure is retried exactly
when it already has a retriable type (the three custom classes,
`ConnectionError` or `TimeoutError`) or its message carries one of those
three marker groups; a generic failure whose message contains only a timeout
phrase, or any connection-failure phrase, propagates on the first attempt
with no backoff wait. -/
theorem claim_C4_amended {α : Type} (op : Nat → Except RetryUtils.Exc α)
    (e : RetryUtils.Exc) (v : α)
    (h0 : op 0 = Except.error e) (h1 : op 1 = Except.ok v) :
    (RetryUtils.isRetryType (RetryUtils.convertError e) = true →
      RetryUtils.retry_on_api_error op = (Except.ok v, 1)) ∧
    (RetryUtils.isRetryType (RetryUtils.convertError e) = false →
      RetryUtils.retry_on_api_error op = (Except.error (RetryUtils.convertError e), 0)) ∧
    RetryUtils.isRetryType (RetryUtils.convertError e) =
      (RetryUtils.isRetryType e ||
        (pyContains (pyLower e.msg) "rate limit" || pyContains (pyLower e.msg) "429" ||
         pyContains (pyLower e.msg) "token limit" || pyContains (pyLower e.msg) "tokens" ||
         pyContains (pyLower e.msg) "503" ||
         pyContains (pyLower e.msg) "service unavailable")) := by
  refine ⟨?_, ?_, ?_⟩
  · intro hb
    unfold RetryUtils.retry_on_api_error Settings.MAX_RETRIES
    rw [retryFrom_three]
    simp only [RetryUtils.attemptOnce, h0, hb, if_true]
    rw [retryFrom_two]
    simp only [RetryUtils.attemptOnce, h1]
  · intro hb
    unfold RetryUtils.retry_on_api_error Settings.MAX_RETRIES
    rw [retryFrom_three]
    simp only [RetryUtils.attemptOnce, h0, hb]
    simp
  · unfold RetryUtils.convertError RetryUtils.is_retriable_error
    dsimp only
    split_ifs <;> simp_all [RetryUtils.isRetryType]

/-- Witness for C4 (amended): a generic failure with a rate-limit message is
retried and succeeds on the second attempt after one wait. -/
theorem claim_C4_witness :
    RetryUtils.retry_on_api_error rateLimitOnceOp = (Except.ok 5, 1) :=
  (claim_C4_amended rateLimitOnceOp
    { ty := RetryUtils.ExcType.genericError, msg := "Rate limit exceeded" } 5
    rfl rfl).1 rfl

/-- C5: an operation that fails on the first two attempts with
classified-retriable errors and succeeds on the third returns the success
result after exactly 2 backoff waits; one that fails on all 3 allowed
attempts is stopped with the last error re-raised after 2 waits; and the
wrapper never performs a 4th attempt — its outcome depends only on the first
three attempt results. -/
theorem claim_C5 {α : Type} (op : Nat → Except RetryUtils.Exc α)
    (e0 e1 : RetryUtils.Exc)
    (h0 : op 0 = Except.error e0) (h1 : op 1 = Except.error e1)
    (hr0 : RetryUtils.isRetryType (RetryUtils.convertError e0) = true)
    (hr1 : RetryUtils.isRetryType (RetryUtils.convertError e1) = true) :
    (∀ v : α, op 2 = Except.ok v →
      RetryUtils.retry_on_api_error op = (Except.ok v, 2)) ∧
    (∀ e2 : RetryUtils.Exc, op 2 = Except.error e2 →
      RetryUtils.retry_on_api_error op =
        (Except.error (RetryUtils.convertError e2), 2)) ∧
    (∀ p q : Nat → Except RetryUtils.Exc α, (∀ i, i < 3 → p i = q i) →
      RetryUtils.retry_on_api_error p = RetryUtils.retry_on_api_error q) := by
  refine ⟨?_, ?_, ?_⟩
  · intro v h2
    unfold RetryUtils.retry_on_api_error Settings.MAX_RETRIES
    rw [retryFrom_three]
    simp only [RetryUtils.attemptOnce, h0, hr0, if_true]
    rw [retryFrom_two]
    simp only [RetryUtils.attemptOnce, h1, hr1, if_true]
    rw [retryFrom_one]
    simp only [RetryUtils.attemptOnce, h2]
  · intro e2 h2
    unfold RetryUtils.retry_on_api_error Settings.MAX_RETRIES
    rw [retryFrom_three]
    simp only [RetryUtils.attemptOnce, h0, hr0, if_true]
    rw [retryFrom_two]
    simp only [RetryUtils.attemptOnce, h1, hr1, if_true]
    rw [retryFrom_one]
    simp only [RetryUtils.attemptOnce, h2]
  · intro p q hpq
    unfold RetryUtils.retry_on_api_error Settings.MAX_RETRIES
    rw [retryFrom_three, retryFrom_three]
    simp only [RetryUtils.attemptOnce, hpq 0 (by norm_num)]
    cases hq0 : q 0 with
    | ok v => rfl
    | error e =>
      cases hre : RetryUtils.isRetryType (RetryUtils.convertError e) with
      | false => simp [hre]
      | true =>
        simp only [hre, if_true]
        rw [retryFrom_two, retryFrom_two]
        simp only [RetryUtils.attemptOnce, hpq 1 (by norm_num)]
        cases hq1 : q 1 with
        | ok v => rfl
        | error e1 =>
          cases hre1 : RetryUtils.isRetryType (RetryUtils.convertError e1) with
          | false => simp [hre1]
          | true =>
            simp only [hre1, if_true]
            rw [retryFrom_one, retryFrom_one]
            simp only [RetryUtils.attemptOnce, hpq 2 (by norm_num)]

/-- Witness for C5: a concrete operation failing twice with an HTTP 429
message then succeeding returns `(ok 7, 2)`, and one failing on all three
attempts re-raises the converted last error after 2 waits. -/
theorem claim_C5_witness :
    RetryUtils.retry_on_api_error failTwiceOp = (Except.ok 7, 2) ∧
    RetryUtils.retry_on_api_error failAlwaysOp =
      (Except.error
        { ty := RetryUtils.ExcType.rateLimitError, msg := "HTTP 429 returned" }, 2) :=
  ⟨(claim_C5 failTwiceOp
      { ty := RetryUtils.ExcType.genericError, msg := "HTTP 429 returned" }
      { ty := RetryUtils.ExcType.genericError, msg := "HTTP 429 returned" }
      rfl rfl rfl rfl).1 7 rfl,
   (claim_C5 failAlwaysOp
      { ty := RetryUtils.ExcType.genericError, msg := "HTTP 429 returned" }
      { ty := RetryUtils.ExcType.genericError, msg := "HTTP 429 returned" }
      rfl rfl rfl rfl).2.1
      { ty := RetryUtils.ExcType.genericError, msg := "HTTP 429 returned" } rfl⟩

/-- A field validated to a present string must have been exactly that JSON
string. -/
theorem fieldOfJVal_ok_some {o : Option Extractor.JVal} {s : String}
    (h : Extractor.fieldOfJVal o = Except.ok (some s)) :
    o = some (Extractor.JVal.str s) := by
  match o with
  | none => simp [Extractor.fieldOfJVal] at h
  | some Extractor.JVal.null => simp [Extractor.fieldOfJVal] at h
  | some (Extractor.JVal.str t) =>
    simp only [Extractor.fieldOfJVal, Except.ok.injEq, Option.some.injEq] at h
    rw [h]
  | some Extractor.JVal.other => simp [Extractor.fieldOfJVal] at h

/-- C7: extraction never propagates a failure: a model response that is not
parseable as JSON (after the strip/fence-strip/strip pipeline) yields the
all-absent record, a store-context failure or a model-call failure yields the
all-absent record, and on successful collaborators the result is exactly the
response-parsing stage. -/
theorem claim_C7 (parseJson : String → Option (List (String × Extractor.JVal)))
    (content : String) (ctx : Except RetryUtils.Exc String)
    (llm : String → Except RetryUtils.Exc String) (documentId : String) :
    Extractor.emptyShipmentData =
      { shipment_id := none, shipper := none, consignee := none,
        pickup_datetime := none, delivery_datetime := none, equipment_type := none,
        mode := none, rate := none, currency := none, weight := none,
        carrier_name := none } ∧
    (parseJson (pyStrip (Extractor.stripCodeFence (pyStrip content))) = none →
      Extractor.parse_shipment_response parseJson content =
        Extractor.emptyShipmentData) ∧
    (∀ e, ctx = Except.error e →
      Extractor.extract_shipment_data parseJson ctx llm documentId =
        Extractor.emptyShipmentData) ∧
    (∀ s e, ctx = Except.ok s →
      llm (Extractor.create_extraction_prompt s) = Except.error e →
      Extractor.extract_shipment_data parseJson ctx llm documentId =
        Extractor.emptyShipmentData) ∧
    (∀ s out, ctx = Except.ok s →
      llm (Extractor.create_extraction_prompt s) = Except.ok out →
      Extractor.extract_shipment_data parseJson ctx llm documentId =
        Extractor.parse_shipment_response parseJson out) := by
  refine ⟨rfl, ?_, ?_, ?_, ?_⟩
  · intro h
    unfold Extractor.parse_shipment_response
    dsimp only
    rw [h]
  · intro e he
    subst he
    rfl
  · intro s e hs he
    subst hs
    unfold Extractor.extract_shipment_data
    dsimp only
    rw [he]
  · intro s out hs hout
    subst hs
    unfold Extractor.extract_shipment_data
    dsimp only
    rw [hout]

/-- Witness for C7: an unparseable response yields the all-absent record, as
does a store failure. -/
theorem claim_C7_witness :
    Extractor.parse_shipment_response alwaysFailParse "not json" =
      Extractor.emptyShipmentData ∧
    Extractor.extract_shipment_data alwaysFailParse
      (Except.error { ty := RetryUtils.ExcType.genericError, msg := "store down" })
      (fun _ => Except.ok "output") "doc1" = Extractor.emptyShipmentData :=
  ⟨(claim_C7 alwaysFailParse "not json" (Except.ok "") (fun _ => Except.ok "") "d").2.1
      rfl,
   (claim_C7 alwaysFailParse "x"
      (Except.error { ty := RetryUtils.ExcType.genericError, msg := "store down" })
      (fun _ => Except.ok "output") "doc1").2.2.1
      { ty := RetryUtils.ExcType.genericError, msg := "store down" } rfl⟩

/-- C8: round-trip — when the model response parses to a JSON object holding
exactly the eleven schema fields with string values, the returned
`ShipmentData` carries exactly those eleven values verbatim, with no
normalization. -/
theorem claim_C8 (parseJson : String → Option (List (String × Extractor.JVal)))
    (content : String) (v1 v2 v3 v4 v5 v6 v7 v8 v9 v10 v11 : String)
    (h : parseJson (pyStrip (Extractor.stripCodeFence (pyStrip content))) =
      some (elevenFieldsObj v1 v2 v3 v4 v5 v6 v7 v8 v9 v10 v11)) :
    Extractor.parse_shipment_response parseJson content =
      { shipment_id := some v1, shipper := some v2, consignee := some v3,
        pickup_datetime := some v4, delivery_datetime := some v5,
        equipment_type := some v6, mode := some v7, rate := some v8,
        currency := some v9, weight := some v10, carrier_name := some v11 } := by
  unfold Extractor.parse_shipment_response
  dsimp only
  rw [h]
  rfl

/-- Witness for C8 at a fully populated concrete response. -/
theorem claim_C8_witness :
    Extractor.parse_shipment_response elevenParse "resp" =
      { shipment_id := some "S1", shipper := some "Acme", consignee := some "Bravo",
        pickup_datetime := some "2024-01-01 08:00",
        delivery_datetime := some "2024-01-02 17:00",
        equipment_type := some "Flatbed", mode := some "FTL", rate := some "1500",
        currency := some "USD", weight := some "42000 lbs",
        carrier_name := some "FastFreight" } :=
  claim_C8 elevenParse "resp" "S1" "Acme" "Bravo" "2024-01-01 08:00"
    "2024-01-02 17:00" "Flatbed" "FTL" "1500" "USD" "42000 lbs" "FastFreight" rfl

/-- C9 counterexample: the claim that no field of a returned record is ever
the empty string fails — a model JSON carrying `"shipment_id": ""` is passed
through verbatim, so the shipment id of the returned record is the empty
string. -/
theorem claim_C9_counterexample :
    (Extractor.parse_shipment_response emptyStringParse "response").shipment_id =
      some "" :=
  rfl

/-- C9 (amended): each of the eleven fields of a validated record is either
absent or exactly the JSON string stored under the key of that field — taken
verbatim, with the empty string passed through rather than coerced to
absence. -/
theorem claim_C9_amended (obj : List (String × Extractor.JVal))
    (sd : Extractor.ShipmentData) (h : Extractor.shipmentDataOfObj obj = Except.ok sd) :
    (∀ s, sd.shipment_id = some s →
      obj.lookup "shipment_id" = some (Extractor.JVal.str s)) ∧
    (∀ s, sd.shipper = some s → obj.lookup "shipper" = some (Extractor.JVal.str s)) ∧
    (∀ s, sd.consignee = some s → obj.lookup "consignee" = some (Extractor.JVal.str s)) ∧
    (∀ s, sd.pickup_datetime = some s →
      obj.lookup "pickup_datetime" = some (Extractor.JVal.str s)) ∧
    (∀ s, sd.delivery_datetime = some s →
      obj.lookup "delivery_datetime" = some (Extractor.JVal.str s)) ∧
    (∀ s, sd.equipment_type = some s →
      obj.lookup "equipment_type" = some (Extractor.JVal.str s)) ∧
    (∀ s, sd.mode = some s → obj.lookup "mode" = some (Extractor.JVal.str s)) ∧
    (∀ s, sd.rate = some s → obj.lookup "rate" = some (Extractor.JVal.str s)) ∧
    (∀ s, sd.currency = some s → obj.lookup "currency" = some (Extractor.JVal.str s)) ∧
    (∀ s, sd.weight = some s → obj.lookup "weight" = some (Extractor.JVal.str s)) ∧
    (∀ s, sd.carrier_name = some s →
      obj.lookup "carrier_name" = some (Extractor.JVal.str s)) := by
  unfold Extractor.shipmentDataOfObj at h
  obtain ⟨a1, ha1, h⟩ := exceptBindOk h
  obtain ⟨a2, ha2, h⟩ := exceptBindOk h
  obtain ⟨a3, ha3, h⟩ := exceptBindOk h
  obtain ⟨a4, ha4, h⟩ := exceptBindOk h
  obtain ⟨a5, ha5, h⟩ := exceptBindOk h
  obtain ⟨a6, ha6, h⟩ := exceptBindOk h
  obtain ⟨a7, ha7, h⟩ := exceptBindOk h
  obtain ⟨a8, ha8, h⟩ := exceptBindOk h
  obtain ⟨a9, ha9, h⟩ := exceptBindOk h
  obtain ⟨a10, ha10, h⟩ := exceptBindOk h
  obtain ⟨a11, ha11, h⟩ := exceptBindOk h
  have hsd : Extractor.ShipmentData.mk a1 a2 a3 a4 a5 a6 a7 a8 a9 a10 a11 = sd := by
    simpa [Pure.pure, Except.pure] using h
  subst hsd
  refine ⟨?_, ?_, ?_, ?_, ?_, ?_, ?_, ?_, ?_, ?_, ?_⟩ <;>
    intro s hs <;> simp only [] at hs
  · rw [hs] at ha1; exact fieldOfJVal_ok_some ha1
  · rw [hs] at ha2; exact fieldOfJVal_ok_some ha2
  · rw [hs] at ha3; exact fieldOfJVal_ok_some ha3
  · rw [hs] at ha4; exact fieldOfJVal_ok_some ha4
  · rw [hs] at ha5; exact fieldOfJVal_ok_some ha5
  · rw [hs] at ha6; exact fieldOfJVal_ok_some ha6
  · rw [hs] at ha7; exact fieldOfJVal_ok_some ha7
  · rw [hs] at ha8; exact fieldOfJVal_ok_some ha8
  · rw [hs] at ha9; exact fieldOfJVal_ok_some ha9
  · rw [hs] at ha10; exact fieldOfJVal_ok_some ha10
  · rw [hs] at ha11; exact fieldOfJVal_ok_some ha11

/-- Witness for C9 (amended): a record validated from an object whose
shipment id is the empty string carries that empty string verbatim. -/
theorem claim_C9_witness :
    [("shipment_id", Extractor.JVal.str "")].lookup "shipment_id" =
      some (Extractor.JVal.str "") :=
  (claim_C9_amended [("shipment_id", Extractor.JVal.str "")]
    { shipment_id := some "" } rfl).1 "" rfl

end TMS
